import Mathlib

/-!
# Verification of the sf-symbols-svg core (`src/index.ts`)

Shallow embedding of the glyph-to-canvas normalization algorithm and the
surrounding plumbing of `src/index.ts`:

* `computeFit` — the fit computation of `generateSymbolSvg` (lines 184-205),
  over exact rationals (the idealized real-arithmetic reading of the
  JavaScript doubles; the spec states its numeric properties "within
  floating-point tolerance").
* `JNum` / `computeFitJS` — the same computation with JavaScript's special
  values (`Infinity`, `-Infinity`, `NaN`) made explicit, so that the
  behaviour on degenerate bounding boxes (division by zero) is captured.
  Finite arithmetic is exact (no rounding is modelled).
* `generateSymbolSvg` — the `Option`-structured generation function with its
  actual null checks (glyph index 0, missing glyph, missing path, missing
  bounding box, failed `d`-attribute match).
* `createSafeFilename` / `createSvgFilename` — file naming (lines 227-240).
* `applyIconsList` — the icons-list filtering of `makeSvgs` (lines 433-484).
* `makeSvgsLoop` — the per-icon/per-weight generation loop (lines 489-509),
  with file writes modelled as an output list.
* `FONT_WEIGHTS` / `processWeights` — the "all" weight expansion
  (lines 593-610).

Strings are modelled per Unicode scalar value (`Char`); glyph/outline access
(opentype.js) is modelled as an oracle structure `Font` exposing exactly the
fields the code reads.
-/

/-- Bounding box as returned by `path.getBoundingBox()` (opentype.js):
fields `x1, y1, x2, y2`. -/
structure BBox where
  x1 : ℚ
  y1 : ℚ
  x2 : ℚ
  y2 : ℚ
deriving DecidableEq, Repr

/-- The affine transform data computed by the fit algorithm:
the matrix is `[scale, 0, 0, scale, translateX, translateY]`. -/
structure Fit where
  scale : ℚ
  translateX : ℚ
  translateY : ℚ
deriving DecidableEq, Repr

/-- The fit computation of `generateSymbolSvg` (src/index.ts lines 184-205),
over exact rationals. -/
def computeFit (fontSize padding : ℚ) (bbox : BBox) : Fit :=
  let symbolWidth := bbox.x2 - bbox.x1
  let symbolHeight := bbox.y2 - bbox.y1
  let availableWidth := fontSize - padding * 2
  let availableHeight := fontSize - padding * 2
  let scale :=
    if symbolWidth / availableWidth > symbolHeight / availableHeight then
      availableWidth / symbolWidth
    else
      availableHeight / symbolHeight
  let scaledWidth := symbolWidth * scale
  let scaledHeight := symbolHeight * scale
  let translateX := (fontSize - scaledWidth) / 2 - bbox.x1 * scale
  let translateY := (fontSize - scaledHeight) / 2 - bbox.y1 * scale
  ⟨scale, translateX, translateY⟩

/-- JavaScript number in the idealized exact model: a finite rational or one
of the special values `Infinity`, `-Infinity`, `NaN`. Finite arithmetic is
exact (IEEE-754 rounding is not modelled); the special values follow the
IEEE-754 rules for the operations used by the fit computation. The sign of
zero is not modelled: a finite `0` behaves as `+0`. -/
inductive JNum where
  | fin (q : ℚ)
  | posInf
  | negInf
  | nan
deriving DecidableEq, Repr

/-- JavaScript subtraction on `JNum`. -/
def jsub : JNum → JNum → JNum
  | .nan, _ => .nan
  | .fin _, .nan => .nan
  | .posInf, .nan => .nan
  | .negInf, .nan => .nan
  | .fin a, .fin b => .fin (a - b)
  | .fin _, .posInf => .negInf
  | .fin _, .negInf => .posInf
  | .posInf, .fin _ => .posInf
  | .posInf, .posInf => .nan
  | .posInf, .negInf => .posInf
  | .negInf, .fin _ => .negInf
  | .negInf, .posInf => .negInf
  | .negInf, .negInf => .nan

/-- JavaScript multiplication on `JNum` (`0 * Infinity = NaN`). -/
def jmul : JNum → JNum → JNum
  | .nan, _ => .nan
  | .fin _, .nan => .nan
  | .posInf, .nan => .nan
  | .negInf, .nan => .nan
  | .fin a, .fin b => .fin (a * b)
  | .fin a, .posInf => if 0 < a then .posInf else if a < 0 then .negInf else .nan
  | .fin a, .negInf => if 0 < a then .negInf else if a < 0 then .posInf else .nan
  | .posInf, .fin b => if 0 < b then .posInf else if b < 0 then .negInf else .nan
  | .negInf, .fin b => if 0 < b then .negInf else if b < 0 then .posInf else .nan
  | .posInf, .posInf => .posInf
  | .posInf, .negInf => .negInf
  | .negInf, .posInf => .negInf
  | .negInf, .negInf => .posInf

/-- JavaScript division on `JNum` (`x / 0` is `±Infinity` for nonzero finite
`x`, `0 / 0 = NaN`, `Infinity / Infinity = NaN`; a zero divisor counts
as `+0`). -/
def jdiv : JNum → JNum → JNum
  | .nan, _ => .nan
  | .fin _, .nan => .nan
  | .posInf, .nan => .nan
  | .negInf, .nan => .nan
  | .fin a, .fin b =>
    if b = 0 then
      if 0 < a then .posInf else if a < 0 then .negInf else .nan
    else .fin (a / b)
  | .fin _, .posInf => .fin 0
  | .fin _, .negInf => .fin 0
  | .posInf, .fin b => if 0 ≤ b then .posInf else .negInf
  | .posInf, .posInf => .nan
  | .posInf, .negInf => .nan
  | .negInf, .fin b => if 0 ≤ b then .negInf else .posInf
  | .negInf, .posInf => .nan
  | .negInf, .negInf => .nan

/-- JavaScript strict greater-than on `JNum` (`NaN` compares false). -/
def jgt : JNum → JNum → Bool
  | .nan, _ => false
  | _, .nan => false
  | .fin a, .fin b => b < a
  | .fin _, .posInf => false
  | .fin _, .negInf => true
  | .posInf, .fin _ => true
  | .posInf, .posInf => false
  | .posInf, .negInf => true
  | .negInf, _ => false

/-- The transform data of the fit computation over JavaScript numbers. -/
structure JFit where
  scale : JNum
  translateX : JNum
  translateY : JNum
deriving DecidableEq, Repr

/-- The fit computation of `generateSymbolSvg` (src/index.ts lines 184-205)
over JavaScript numbers, capturing the behaviour on degenerate bounding boxes
(division by zero width/height). -/
def computeFitJS (fontSize padding : ℚ) (bbox : BBox) : JFit :=
  let symbolWidth := jsub (JNum.fin bbox.x2) (JNum.fin bbox.x1)
  let symbolHeight := jsub (JNum.fin bbox.y2) (JNum.fin bbox.y1)
  let availableWidth := jsub (JNum.fin fontSize) (jmul (JNum.fin padding) (JNum.fin 2))
  let availableHeight := jsub (JNum.fin fontSize) (jmul (JNum.fin padding) (JNum.fin 2))
  let scale :=
    if jgt (jdiv symbolWidth availableWidth) (jdiv symbolHeight availableHeight) then
      jdiv availableWidth symbolWidth
    else
      jdiv availableHeight symbolHeight
  let scaledWidth := jmul symbolWidth scale
  let scaledHeight := jmul symbolHeight scale
  let translateX :=
    jsub (jdiv (jsub (JNum.fin fontSize) scaledWidth) (JNum.fin 2))
      (jmul (JNum.fin bbox.x1) scale)
  let translateY :=
    jsub (jdiv (jsub (JNum.fin fontSize) scaledHeight) (JNum.fin 2))
      (jmul (JNum.fin bbox.y1) scale)
  ⟨scale, translateX, translateY⟩

/-- Options of `generateSymbolSvg` (src/index.ts lines 155-158). -/
structure GenerateSymbolOptions where
  fontSize : ℚ
  padding : ℚ

/-- The fields of an opentype.js `Path` that `generateSymbolSvg` reads: the
result of `getBoundingBox()` and the `d="..."` attribute content extracted by
regex from `toSVG(precision)` (`none` when the value is null / the regex does
not match). -/
structure FontPath where
  boundingBox : Option BBox
  dContent : Option String

/-- Oracle model of an opentype.js `Font`: exactly the operations invoked by
`generateSymbolSvg`. The glyph object returned by `glyphs.get` is only checked
for presence, never inspected, so it is modelled as `Option Unit`. -/
structure Font where
  charToGlyphIndex : String → Nat
  glyphs : Nat → Option Unit
  getPath : String → ℚ → Option FontPath

/-- The semantic content of the emitted SVG document (src/index.ts lines
214-217): the canvas size (used for the viewBox `0 0 size size` and the
width/height attributes), the title (icon name), the transform matrix
`[scale, 0, 0, scale, translateX, translateY]`, and the path data. -/
structure SvgDoc where
  size : ℚ
  title : String
  transformMatrix : List JNum
  dContent : String

/-- Model of `generateSymbolSvg` (src/index.ts lines 163-222): null checks for glyph
index `0`, missing glyph, missing path, missing bounding box and failed
`d`-attribute match, around the fit computation. The function is total, so
the `try/catch` of the source (which also maps exceptions to null) has no
separate representation. -/
def generateSymbolSvg (font : Font) (char : String) (name : String)
    (options : GenerateSymbolOptions) : Option SvgDoc :=
  let glyphIndex := font.charToGlyphIndex char
  if glyphIndex = 0 then none
  else
    match font.glyphs glyphIndex with
    | none => none
    | some _ =>
      match font.getPath char options.fontSize with
      | none => none
      | some path =>
        match path.boundingBox with
        | none => none
        | some bbox =>
          let fit := computeFitJS options.fontSize options.padding bbox
          let transformMatrix :=
            [fit.scale, JNum.fin 0, JNum.fin 0, fit.scale,
              fit.translateX, fit.translateY]
          match path.dContent with
          | none => none
          | some dContent =>
            some ⟨options.fontSize, name, transformMatrix, dContent⟩

/-- A character matched by the regex class `[a-z0-9.]` with the `i` flag:
ASCII letter (either case), ASCII digit, or dot. -/
def isSafeChar (c : Char) : Bool :=
  ('a' ≤ c && c ≤ 'z') || ('A' ≤ c && c ≤ 'Z') || ('0' ≤ c && c ≤ '9') || c = '.'

/-- One step of `name.replace(/[^a-z0-9\.]/gi, "_")`: a character outside the
safe class is replaced by an underscore. -/
def replaceUnsafeChar (c : Char) : Char :=
  if isSafeChar c then c else '_'

/-- JavaScript `toLowerCase()`, modelled per character (ASCII case mapping;
every use in the source applies it to ASCII data). -/
def jsToLowerCase (s : String) : String :=
  String.mk (s.data.map Char.toLower)

/-- Model of `createSafeFilename` (src/index.ts lines 227-229):
`name.replace(/[^a-z0-9\.]/gi, "_").toLowerCase()`. -/
def createSafeFilename (name : String) : String :=
  jsToLowerCase (String.mk (name.data.map replaceUnsafeChar))

/-- Model of `createSvgFilename` (src/index.ts lines 234-240). -/
def createSvgFilename (name weight : String) : String :=
  let safeName := createSafeFilename name
  if weight = "regular" then
    safeName ++ ".svg"
  else
    safeName ++ "-" ++ weight ++ ".svg"

/-- The `FONT_WEIGHTS` list (src/index.ts lines 593-603). -/
def FONT_WEIGHTS : List String :=
  ["thin", "ultraLight", "light", "regular", "medium", "semibold",
    "bold", "heavy", "black"]

/-- The "all" weight expansion (src/index.ts lines 606-610):
`if (weights.length === 1 && weights[0].toLowerCase() === "all")
 weights = FONT_WEIGHTS`. -/
def processWeights (weights : List String) : List String :=
  if weights.length = 1 ∧ jsToLowerCase (weights.headD "") = "all" then
    FONT_WEIGHTS
  else weights

/-- The filtering loop over the icons list (src/index.ts lines 452-466):
for each entry, `names.indexOf` is consulted (`index < names.length` models
the JavaScript `index !== -1`); on a hit the name is pushed, and the
codepoint token at that index is pushed when the index is in range and the
token is non-empty (truthy). -/
def filterIconsAux (names symbolsData : List String) :
    List String → List String × List String
  | [] => ([], [])
  | iconName :: rest =>
    let r := filterIconsAux names symbolsData rest
    let index := names.indexOf iconName
    if index < names.length then
      (iconName :: r.1,
        (if index < symbolsData.length then
          (if symbolsData.getD index "" ≠ "" then [symbolsData.getD index ""] else [])
        else []) ++ r.2)
    else r

/-- The icons-list handling of `makeSvgs` (src/index.ts lines 433-484): an
empty list (after dropping blank lines) or a list matching no available name
falls back to the full `names`/`symbolsData` pair; otherwise the filtered
pair replaces it. -/
def applyIconsList (names symbolsData iconsList : List String) :
    List String × List String :=
  if iconsList.length = 0 then (names, symbolsData)
  else
    let r := filterIconsAux names symbolsData iconsList
    if r.1.length = 0 then (names, symbolsData) else r

/-- The generation loop of `makeSvgs` (src/index.ts lines 489-509). A `continue`
is an empty contribution; writing a file is modelled as emitting the pair
`(filename, document)`. A falsy (`""`) or out-of-range name or codepoint skips
the index; a null generation result skips the (icon, weight) pair. -/
def makeSvgsLoop (validFonts : List (String × Font))
    (names symbolsData : List String)
    (options : GenerateSymbolOptions) : List (String × SvgDoc) :=
  (List.range names.length).flatMap (fun namesIndex =>
    let name := names.getD namesIndex ""
    if name = "" then []
    else
      let char := symbolsData.getD namesIndex ""
      if char = "" then []
      else
        validFonts.filterMap (fun wf =>
          match generateSymbolSvg wf.2 char name options with
          | none => none
          | some svgContent => some (createSvgFilename name wf.1, svgContent)))

/-- A font oracle whose glyph for any character resolves but has no outline
geometry: opentype.js returns the bounding box `(0, 0, 0, 0)` for an empty
path (its `getBoundingBox` adds the point `(0, 0)` to an empty box), and
`toSVG` yields `<path d=""/>`, whose `d` attribute the regex matches as the
empty string. This models e.g. a whitespace glyph. -/
def degenerateFont : Font where
  charToGlyphIndex := fun _ => 1
  glyphs := fun _ => some ()
  getPath := fun _ _ => some ⟨some ⟨0, 0, 0, 0⟩, some ""⟩

/-- A font oracle whose glyph resolves to a degenerate vertical-line outline:
bounding box `(0, 0, 0, 10)` (zero width, positive height). -/
def zeroWidthFont : Font where
  charToGlyphIndex := fun _ => 1
  glyphs := fun _ => some ()
  getPath := fun _ _ => some ⟨some ⟨0, 0, 0, 10⟩, some "M0 0L0 10"⟩

/-- A font oracle in which no character resolves to a glyph
(`charToGlyphIndex` yields the .notdef index `0`). -/
def missingGlyphFont : Font where
  charToGlyphIndex := fun _ => 0
  glyphs := fun _ => none
  getPath := fun _ _ => none

theorem computeFit_scale (fontSize padding : ℚ) (bbox : BBox) :
    (computeFit fontSize padding bbox).scale =
      if (bbox.x2 - bbox.x1) / (fontSize - padding * 2) >
          (bbox.y2 - bbox.y1) / (fontSize - padding * 2) then
        (fontSize - padding * 2) / (bbox.x2 - bbox.x1)
      else
        (fontSize - padding * 2) / (bbox.y2 - bbox.y1) := rfl

theorem computeFit_translateX (fontSize padding : ℚ) (bbox : BBox) :
    (computeFit fontSize padding bbox).translateX =
      (fontSize - (bbox.x2 - bbox.x1) * (computeFit fontSize padding bbox).scale) / 2
        - bbox.x1 * (computeFit fontSize padding bbox).scale := rfl

theorem computeFit_translateY (fontSize padding : ℚ) (bbox : BBox) :
    (computeFit fontSize padding bbox).translateY =
      (fontSize - (bbox.y2 - bbox.y1) * (computeFit fontSize padding bbox).scale) / 2
        - bbox.y1 * (computeFit fontSize padding bbox).scale := rfl

/-- In both branches of the fit computation, the scaled width and height are
positive and bounded by the available (padded) span `fontSize - padding * 2`. -/
theorem computeFit_scaled_bounds (fontSize padding : ℚ) (bbox : BBox)
    (hw : 0 < bbox.x2 - bbox.x1) (hh : 0 < bbox.y2 - bbox.y1)
    (hA : 0 < fontSize - padding * 2) :
    0 < (bbox.x2 - bbox.x1) * (computeFit fontSize padding bbox).scale ∧
    (bbox.x2 - bbox.x1) * (computeFit fontSize padding bbox).scale
      ≤ fontSize - padding * 2 ∧
    0 < (bbox.y2 - bbox.y1) * (computeFit fontSize padding bbox).scale ∧
    (bbox.y2 - bbox.y1) * (computeFit fontSize padding bbox).scale
      ≤ fontSize - padding * 2 := by
  rw [computeFit_scale]
  set w := bbox.x2 - bbox.x1 with hwdef
  set h := bbox.y2 - bbox.y1 with hhdef
  set A := fontSize - padding * 2 with hAdef
  by_cases hbr : w / A > h / A
  · rw [if_pos hbr]
    have hwA : w * (A / w) = A := by field_simp
    have hlt : h < w := (div_lt_div_iff_of_pos_right hA).mp hbr
    have hs : 0 < A / w := div_pos hA hw
    refine ⟨by positivity, by rw [hwA], by positivity, le_of_lt ?_⟩
    calc h * (A / w) < w * (A / w) := by
          exact mul_lt_mul_of_pos_right hlt hs
      _ = A := hwA
  · rw [if_neg hbr]
    have hhA : h * (A / h) = A := by field_simp
    have hle : w ≤ h := (div_le_div_iff_of_pos_right hA).mp (not_lt.mp hbr)
    have hs : 0 < A / h := div_pos hA hh
    refine ⟨by positivity, ?_, by positivity, by rw [hhA]⟩
    calc w * (A / h) ≤ h * (A / h) := by
          exact mul_le_mul_of_nonneg_right hle (le_of_lt hs)
      _ = A := hhA

/-- C1: for a bounding box with positive width and height and a configuration
with `canvasSize > 0`, `padding ≥ 0`, `padding * 2 < canvasSize` (here the
canvas size is the `fontSize` parameter of `generateSymbolSvg`), the affine
transform `[scale, 0, 0, scale, translateX, translateY]` maps the bounding box
to a rectangle fully contained in `[0, canvasSize] × [0, canvasSize]`, with
equal left/right margins and equal top/bottom margins. -/
theorem transform_maps_bbox_into_canvas_centered
    (fontSize padding : ℚ) (bbox : BBox)
    (hw : 0 < bbox.x2 - bbox.x1) (hh : 0 < bbox.y2 - bbox.y1)
    (hC : 0 < fontSize) (hp : 0 ≤ padding) (hpC : padding * 2 < fontSize) :
    0 ≤ (computeFit fontSize padding bbox).scale * bbox.x1
        + (computeFit fontSize padding bbox).translateX ∧
    (computeFit fontSize padding bbox).scale * bbox.x2
        + (computeFit fontSize padding bbox).translateX ≤ fontSize ∧
    (computeFit fontSize padding bbox).scale * bbox.x1
        + (computeFit fontSize padding bbox).translateX
      = fontSize - ((computeFit fontSize padding bbox).scale * bbox.x2
        + (computeFit fontSize padding bbox).translateX) ∧
    0 ≤ (computeFit fontSize padding bbox).scale * bbox.y1
        + (computeFit fontSize padding bbox).translateY ∧
    (computeFit fontSize padding bbox).scale * bbox.y2
        + (computeFit fontSize padding bbox).translateY ≤ fontSize ∧
    (computeFit fontSize padding bbox).scale * bbox.y1
        + (computeFit fontSize padding bbox).translateY
      = fontSize - ((computeFit fontSize padding bbox).scale * bbox.y2
        + (computeFit fontSize padding bbox).translateY) := by
  have hA : 0 < fontSize - padding * 2 := by linarith
  obtain ⟨hw0, hwA, hh0, hhA⟩ :=
    computeFit_scaled_bounds fontSize padding bbox hw hh hA
  have hlox : (computeFit fontSize padding bbox).scale * bbox.x1
      + (computeFit fontSize padding bbox).translateX
      = (fontSize - (bbox.x2 - bbox.x1) * (computeFit fontSize padding bbox).scale) / 2 := by
    rw [computeFit_translateX]; ring
  have hhix : (computeFit fontSize padding bbox).scale * bbox.x2
      + (computeFit fontSize padding bbox).translateX
      = (fontSize + (bbox.x2 - bbox.x1) * (computeFit fontSize padding bbox).scale) / 2 := by
    rw [computeFit_translateX]; ring
  have hloy : (computeFit fontSize padding bbox).scale * bbox.y1
      + (computeFit fontSize padding bbox).translateY
      = (fontSize - (bbox.y2 - bbox.y1) * (computeFit fontSize padding bbox).scale) / 2 := by
    rw [computeFit_translateY]; ring
  have hhiy : (computeFit fontSize padding bbox).scale * bbox.y2
      + (computeFit fontSize padding bbox).translateY
      = (fontSize + (bbox.y2 - bbox.y1) * (computeFit fontSize padding bbox).scale) / 2 := by
    rw [computeFit_translateY]; ring
  rw [hlox, hhix, hloy, hhiy]
  refine ⟨by linarith, by linarith, by ring, by linarith, by linarith, by ring⟩

/-- Closed witness for `transform_maps_bbox_into_canvas_centered` at
canvas size 24, padding 2, bounding box `(0, 0, 100, 50)`. -/
theorem transform_maps_bbox_into_canvas_centered_witness :
    (0 : ℚ) < 100 - 0 ∧ (0 : ℚ) < 50 - 0 ∧ (0 : ℚ) < 24 ∧ (0 : ℚ) ≤ 2 ∧
      (2 : ℚ) * 2 < 24 ∧
    (0 ≤ (computeFit 24 2 ⟨0, 0, 100, 50⟩).scale * (0 : ℚ)
        + (computeFit 24 2 ⟨0, 0, 100, 50⟩).translateX ∧
      (computeFit 24 2 ⟨0, 0, 100, 50⟩).scale * (100 : ℚ)
        + (computeFit 24 2 ⟨0, 0, 100, 50⟩).translateX ≤ 24 ∧
      (computeFit 24 2 ⟨0, 0, 100, 50⟩).scale * (0 : ℚ)
        + (computeFit 24 2 ⟨0, 0, 100, 50⟩).translateX
        = 24 - ((computeFit 24 2 ⟨0, 0, 100, 50⟩).scale * (100 : ℚ)
          + (computeFit 24 2 ⟨0, 0, 100, 50⟩).translateX) ∧
      0 ≤ (computeFit 24 2 ⟨0, 0, 100, 50⟩).scale * (0 : ℚ)
        + (computeFit 24 2 ⟨0, 0, 100, 50⟩).translateY ∧
      (computeFit 24 2 ⟨0, 0, 100, 50⟩).scale * (50 : ℚ)
        + (computeFit 24 2 ⟨0, 0, 100, 50⟩).translateY ≤ 24 ∧
      (computeFit 24 2 ⟨0, 0, 100, 50⟩).scale * (0 : ℚ)
        + (computeFit 24 2 ⟨0, 0, 100, 50⟩).translateY
        = 24 - ((computeFit 24 2 ⟨0, 0, 100, 50⟩).scale * (50 : ℚ)
          + (computeFit 24 2 ⟨0, 0, 100, 50⟩).translateY)) :=
  ⟨by norm_num, by norm_num, by norm_num, by norm_num, by norm_num,
    transform_maps_bbox_into_canvas_centered 24 2 ⟨0, 0, 100, 50⟩
      (by norm_num) (by norm_num) (by norm_num) (by norm_num) (by norm_num)⟩

/-- C2: the scale is chosen by comparing `symbolWidth / availableWidth` with
`symbolHeight / availableHeight`; the limiting dimension (larger ratio) scaled
by the chosen scale fills exactly `canvasSize - padding * 2`, and the other
dimension fills at most `canvasSize - padding * 2`. -/
theorem scale_limiting_dimension_exact
    (fontSize padding : ℚ) (bbox : BBox)
    (hw : 0 < bbox.x2 - bbox.x1) (hh : 0 < bbox.y2 - bbox.y1)
    (hC : 0 < fontSize) (hpC : padding * 2 < fontSize) :
    ((bbox.x2 - bbox.x1) / (fontSize - padding * 2) >
        (bbox.y2 - bbox.y1) / (fontSize - padding * 2) →
      (computeFit fontSize padding bbox).scale
          = (fontSize - padding * 2) / (bbox.x2 - bbox.x1) ∧
        (bbox.x2 - bbox.x1) * (computeFit fontSize padding bbox).scale
          = fontSize - padding * 2 ∧
        (bbox.y2 - bbox.y1) * (computeFit fontSize padding bbox).scale
          ≤ fontSize - padding * 2) ∧
    (¬((bbox.x2 - bbox.x1) / (fontSize - padding * 2) >
        (bbox.y2 - bbox.y1) / (fontSize - padding * 2)) →
      (computeFit fontSize padding bbox).scale
          = (fontSize - padding * 2) / (bbox.y2 - bbox.y1) ∧
        (bbox.y2 - bbox.y1) * (computeFit fontSize padding bbox).scale
          = fontSize - padding * 2 ∧
        (bbox.x2 - bbox.x1) * (computeFit fontSize padding bbox).scale
          ≤ fontSize - padding * 2) := by
  have hA : 0 < fontSize - padding * 2 := by linarith
  obtain ⟨hw0, hwA, hh0, hhA⟩ :=
    computeFit_scaled_bounds fontSize padding bbox hw hh hA
  constructor
  · intro hbr
    have hs : (computeFit fontSize padding bbox).scale
        = (fontSize - padding * 2) / (bbox.x2 - bbox.x1) := by
      rw [computeFit_scale, if_pos hbr]
    refine ⟨hs, ?_, hhA⟩
    rw [hs]; field_simp
  · intro hbr
    have hs : (computeFit fontSize padding bbox).scale
        = (fontSize - padding * 2) / (bbox.y2 - bbox.y1) := by
      rw [computeFit_scale, if_neg hbr]
    refine ⟨hs, ?_, hwA⟩
    rw [hs]; field_simp

/-- Closed witness for `scale_limiting_dimension_exact` at canvas size 24,
padding 2, bounding box `(0, 0, 100, 50)` (width is the limiting dimension). -/
theorem scale_limiting_dimension_exact_witness :
    (0 : ℚ) < 100 - 0 ∧ (0 : ℚ) < 50 - 0 ∧ (0 : ℚ) < 24 ∧ (2 : ℚ) * 2 < 24 ∧
    ((100 : ℚ) - 0) / (24 - 2 * 2) > ((50 : ℚ) - 0) / (24 - 2 * 2) ∧
    ((computeFit 24 2 ⟨0, 0, 100, 50⟩).scale = (24 - 2 * 2) / ((100 : ℚ) - 0) ∧
      ((100 : ℚ) - 0) * (computeFit 24 2 ⟨0, 0, 100, 50⟩).scale = 24 - 2 * 2 ∧
      ((50 : ℚ) - 0) * (computeFit 24 2 ⟨0, 0, 100, 50⟩).scale ≤ 24 - 2 * 2) :=
  ⟨by norm_num, by norm_num, by norm_num, by norm_num, by norm_num,
    (scale_limiting_dimension_exact 24 2 ⟨0, 0, 100, 50⟩
      (by norm_num) (by norm_num) (by norm_num) (by norm_num)).1 (by norm_num)⟩

/-- C4: the fit computation reproduces the spec's two worked examples exactly:
canvas 24, padding 2, box `(0, 0, 100, 50)` gives scale `0.2 = 1/5`,
translateX `2`, translateY `7`; canvas 24, padding 2, box `(0, 0, 10, 10)`
gives scale `2`, translateX `2`, translateY `2`. -/
theorem computeFit_worked_examples :
    computeFit 24 2 ⟨0, 0, 100, 50⟩ = ⟨1/5, 2, 7⟩ ∧
    computeFit 24 2 ⟨0, 0, 10, 10⟩ = ⟨2, 2, 2⟩ := by
  constructor
  · simp only [computeFit]; norm_num
  · simp only [computeFit]; norm_num

/-- On every input where no division hits zero — nonzero bounding-box width
and height and `canvasSize ≠ padding * 2` — the JavaScript-number fit
computation agrees with the exact-rational one: all values are finite and
identical. -/
theorem computeFitJS_eq_computeFit (fontSize padding : ℚ) (bbox : BBox)
    (hw : bbox.x2 - bbox.x1 ≠ 0) (hh : bbox.y2 - bbox.y1 ≠ 0)
    (hA : fontSize - padding * 2 ≠ 0) :
    computeFitJS fontSize padding bbox
      = ⟨JNum.fin (computeFit fontSize padding bbox).scale,
         JNum.fin (computeFit fontSize padding bbox).translateX,
         JNum.fin (computeFit fontSize padding bbox).translateY⟩ := by
  simp only [computeFitJS, computeFit, jsub, jmul, jdiv, jgt, if_neg hA, if_neg hw,
    if_neg hh]
  by_cases hbr : (bbox.y2 - bbox.y1) / (fontSize - padding * 2)
      < (bbox.x2 - bbox.x1) / (fontSize - padding * 2)
  · simp [hbr, hw, hh, hA, jsub, jmul, jdiv, jgt]
  · simp [hbr, hw, hh, hA, jsub, jmul, jdiv, jgt]

/-- C5 fails as stated: the claim that aspect ratio is preserved for every
bounding box with positive width and height breaks when `canvasSize = padding * 2`: at canvas 4,
padding 2, box `(0, 0, 2, 1)` the scale is `0`, so the ratio of the scaled
dimensions is `0/0` — which is not `2/1`, in the exact model ( `0/0 = 0` )
as in JavaScript (`0/0 = NaN`, shown on the JavaScript-number model). -/
theorem aspect_ratio_counterexample :
    ¬(((2 : ℚ) - 0) * (computeFit 4 2 ⟨0, 0, 2, 1⟩).scale /
         (((1 : ℚ) - 0) * (computeFit 4 2 ⟨0, 0, 2, 1⟩).scale)
       = ((2 : ℚ) - 0) / ((1 : ℚ) - 0)) ∧
    jdiv (jmul (jsub (JNum.fin 2) (JNum.fin 0)) (computeFitJS 4 2 ⟨0, 0, 2, 1⟩).scale)
        (jmul (jsub (JNum.fin 1) (JNum.fin 0)) (computeFitJS 4 2 ⟨0, 0, 2, 1⟩).scale)
      = JNum.nan := by
  constructor
  · simp only [computeFit]
    norm_num
  · simp only [computeFitJS, jsub, jmul, jdiv, jgt]
    norm_num

/-- C5 (amended): for every bounding box with positive width and positive
height, and provided `canvasSize - padding * 2 ≠ 0`, the single uniform scale
factor preserves the aspect ratio:
`scaledWidth / scaledHeight = symbolWidth / symbolHeight`. -/
theorem aspect_ratio_preserved (fontSize padding : ℚ) (bbox : BBox)
    (hw : 0 < bbox.x2 - bbox.x1) (hh : 0 < bbox.y2 - bbox.y1)
    (hA : fontSize - padding * 2 ≠ 0) :
    (bbox.x2 - bbox.x1) * (computeFit fontSize padding bbox).scale /
        ((bbox.y2 - bbox.y1) * (computeFit fontSize padding bbox).scale)
      = (bbox.x2 - bbox.x1) / (bbox.y2 - bbox.y1) := by
  have hs : (computeFit fontSize padding bbox).scale ≠ 0 := by
    rw [computeFit_scale]
    split
    · exact div_ne_zero hA (ne_of_gt hw)
    · exact div_ne_zero hA (ne_of_gt hh)
  rw [mul_comm (bbox.x2 - bbox.x1), mul_comm (bbox.y2 - bbox.y1),
    mul_div_mul_left _ _ hs]

/-- Closed witness for `aspect_ratio_preserved` at canvas 24, padding 2,
bounding box `(0, 0, 100, 50)`. -/
theorem aspect_ratio_preserved_witness :
    (0 : ℚ) < 100 - 0 ∧ (0 : ℚ) < 50 - 0 ∧ (24 : ℚ) - 2 * 2 ≠ 0 ∧
    ((100 : ℚ) - 0) * (computeFit 24 2 ⟨0, 0, 100, 50⟩).scale /
        (((50 : ℚ) - 0) * (computeFit 24 2 ⟨0, 0, 100, 50⟩).scale)
      = ((100 : ℚ) - 0) / ((50 : ℚ) - 0) :=
  ⟨by norm_num, by norm_num, by norm_num,
    aspect_ratio_preserved 24 2 ⟨0, 0, 100, 50⟩
      (by norm_num) (by norm_num) (by norm_num)⟩

/-- C6 fails as stated: the claimed filename for `"Moon.Stars"` at weight `"regular"` is wrong:
the sanitization retains dots (`[^a-z0-9\.]`), so the code produces
`moon.stars.svg`, not `moon_stars.svg`. -/
theorem moon_stars_filename_counterexample :
    createSvgFilename "Moon.Stars" "regular" = "moon.stars.svg" ∧
    createSvgFilename "Moon.Stars" "regular" ≠ "moon_stars.svg" := by
  refine ⟨by decide, by decide⟩

/-- C6 (amended): the filename for `"Moon.Stars"` at weight `"regular"` is
`moon.stars.svg` and at weight `"bold"` is `moon.stars-bold.svg`;
sanitization retains letters, digits and dots, replaces every other
character with an underscore, and case-folds to lowercase. -/
theorem moon_stars_filenames :
    createSvgFilename "Moon.Stars" "regular" = "moon.stars.svg" ∧
    createSvgFilename "Moon.Stars" "bold" = "moon.stars-bold.svg" ∧
    ∀ name : String, (createSafeFilename name).data
      = name.data.map (fun c => Char.toLower (if isSafeChar c then c else '_')) := by
  refine ⟨by decide, by decide, fun name => ?_⟩
  simp [createSafeFilename, jsToLowerCase, replaceUnsafeChar, Function.comp]

/-- C7 fails as stated: the weight is appended to the filename verbatim, not sanitized or
lowercased: weight `"ultraLight"` yields `sun-ultraLight.svg`, not the
`sun-ultralight.svg` the claim's case-folding would give. -/
theorem weight_not_lowercased_counterexample :
    createSvgFilename "sun" "ultraLight" = "sun-ultraLight.svg" ∧
    createSvgFilename "sun" "ultraLight" ≠ "sun-ultralight.svg" := by
  refine ⟨by decide, by decide⟩

/-- C7 (amended): the output filename is the sanitized name plus `.svg` when
the weight is `"regular"`, and the sanitized name plus `-{weight}.svg` for any
other weight; only the icon name is sanitized (letters, digits and dots kept,
every other character replaced by an underscore, case-folded to lowercase) —
the weight is appended verbatim. -/
theorem svg_filename_structure :
    (∀ name : String,
      createSvgFilename name "regular" = createSafeFilename name ++ ".svg") ∧
    (∀ name weight : String, weight ≠ "regular" →
      createSvgFilename name weight
        = createSafeFilename name ++ "-" ++ weight ++ ".svg") ∧
    (∀ name : String, (createSafeFilename name).data
      = name.data.map (fun c => Char.toLower (if isSafeChar c then c else '_'))) := by
  refine ⟨fun name => by simp [createSvgFilename],
    fun name weight hw => by simp [createSvgFilename, hw],
    fun name => ?_⟩
  simp [createSafeFilename, jsToLowerCase, replaceUnsafeChar, Function.comp]

/-- Closed witness for `svg_filename_structure` at name `"sun"`,
weight `"bold"`. -/
theorem svg_filename_structure_witness :
    ("bold" : String) ≠ "regular" ∧
    createSvgFilename "sun" "bold" = createSafeFilename "sun" ++ "-" ++ "bold" ++ ".svg" :=
  ⟨by decide, svg_filename_structure.2.1 "sun" "bold" (by decide)⟩

/-- C10: the `"all"` sentinel expands to the fixed nine-weight list exactly
when the weight flag list has a single element whose lowercasing is `"all"`;
any other list — including `"all"` together with another weight — passes
through unchanged, with the literal string `"all"` kept as a weight name. -/
theorem all_weight_expansion :
    (∀ w : String, jsToLowerCase w = "all" → processWeights [w] = FONT_WEIGHTS) ∧
    (∀ w : String, jsToLowerCase w ≠ "all" → processWeights [w] = [w]) ∧
    (∀ ws : List String, ws.length ≠ 1 → processWeights ws = ws) ∧
    processWeights ["all", "bold"] = ["all", "bold"] ∧
    FONT_WEIGHTS = ["thin", "ultraLight", "light", "regular", "medium",
      "semibold", "bold", "heavy", "black"] := by
  refine ⟨fun w hw => ?_, fun w hw => ?_, fun ws hws => ?_, ?_, rfl⟩
  · simp [processWeights, hw]
  · simp [processWeights, hw]
  · simp [processWeights, hws]
  · simp [processWeights]

/-- Closed witness for `all_weight_expansion`: `-w ALL` (any casing) expands,
`-w bold` does not, and a two-element list passes through. -/
theorem all_weight_expansion_witness :
    jsToLowerCase "ALL" = "all" ∧ processWeights ["ALL"] = FONT_WEIGHTS ∧
    jsToLowerCase "bold" ≠ "all" ∧ processWeights ["bold"] = ["bold"] ∧
    (["all", "bold"] : List String).length ≠ 1 ∧
    processWeights ["all", "bold"] = ["all", "bold"] :=
  ⟨by decide, all_weight_expansion.1 "ALL" (by decide),
    by decide, all_weight_expansion.2.1 "bold" (by decide),
    by decide, all_weight_expansion.2.2.1 ["all", "bold"] (by decide)⟩

/-- The filtering loop, on well-formed data (at least as many codepoint
tokens as names, none of them empty), returns exactly the icon-list entries
present in `names` together with the codepoint token at each name's index. -/
theorem filterIconsAux_eq (names symbolsData : List String)
    (hlen : names.length ≤ symbolsData.length)
    (hne : "" ∉ symbolsData) (iconsList : List String) :
    filterIconsAux names symbolsData iconsList
      = (iconsList.filter (fun n => decide (n ∈ names)),
         (iconsList.filter (fun n => decide (n ∈ names))).map
           (fun n => symbolsData.getD (names.indexOf n) "")) := by
  induction iconsList with
  | nil => rfl
  | cons iconName rest ih =>
    by_cases hmem : iconName ∈ names
    · have hidx : names.indexOf iconName < names.length :=
        List.indexOf_lt_length.mpr hmem
      have hidx2 : names.indexOf iconName < symbolsData.length :=
        lt_of_lt_of_le hidx hlen
      have hgetD : symbolsData.getD (names.indexOf iconName) ""
          = symbolsData[names.indexOf iconName] := by
        simp [List.getD_eq_getElem?_getD, List.getElem?_eq_getElem hidx2]
      have hget : symbolsData.getD (names.indexOf iconName) "" ≠ "" := by
        rw [hgetD]
        intro h
        exact hne (h ▸ List.getElem_mem hidx2)
      have hget2 : symbolsData[names.indexOf iconName] ≠ "" := hgetD ▸ hget
      simp only [filterIconsAux, ih, List.filter_cons]
      simp [hidx, hidx2, hget, hget2, hmem]
    · have hidx : ¬ names.indexOf iconName < names.length := by
        simp [List.indexOf_lt_length, hmem]
      simp only [filterIconsAux, ih, List.filter_cons]
      simp [hidx, hmem]

/-- C8: with index-aligned data files (as many non-empty codepoint tokens as
names), an icons list none of whose entries occurs in the available names —
in particular an empty list — falls back to processing all icons; when at
least one entry matches, exactly the matching entries are processed, each
paired with the codepoint token at its name's index. -/
theorem icons_list_fallback_and_filter (names symbolsData iconsList : List String)
    (hlen : names.length = symbolsData.length) (hne : "" ∉ symbolsData) :
    (iconsList.filter (fun n => decide (n ∈ names)) = [] →
      applyIconsList names symbolsData iconsList = (names, symbolsData)) ∧
    (iconsList.filter (fun n => decide (n ∈ names)) ≠ [] →
      applyIconsList names symbolsData iconsList
        = (iconsList.filter (fun n => decide (n ∈ names)),
           (iconsList.filter (fun n => decide (n ∈ names))).map
             (fun n => symbolsData.getD (names.indexOf n) ""))) := by
  have haux := filterIconsAux_eq names symbolsData (le_of_eq hlen) hne iconsList
  constructor
  · intro hempty
    rcases iconsList with _ | ⟨x, xs⟩
    · rfl
    · unfold applyIconsList
      rw [if_neg (by simp)]
      simp only [haux, hempty]
      rfl
  · intro hnonempty
    rcases iconsList with _ | ⟨x, xs⟩
    · simp at hnonempty
    · unfold applyIconsList
      rw [if_neg (by simp)]
      simp only [haux]
      rw [if_neg (by simpa using hnonempty)]

/-- Closed witness for `icons_list_fallback_and_filter`: of the icon list
`["b", "zz"]` against names `["a", "b"]` with codepoints `["x", "y"]`, only
`"b"` matches, and it is processed with its aligned codepoint `"y"`;
the unmatched list `["zz"]` falls back to all icons. -/
theorem icons_list_fallback_and_filter_witness :
    ((["a", "b"] : List String).length = (["x", "y"] : List String).length ∧
      ("" : String) ∉ (["x", "y"] : List String) ∧
      (["b", "zz"] : List String).filter
          (fun n => decide (n ∈ (["a", "b"] : List String))) ≠ [] ∧
      applyIconsList ["a", "b"] ["x", "y"] ["b", "zz"] = (["b"], ["y"])) ∧
    ((["zz"] : List String).filter
          (fun n => decide (n ∈ (["a", "b"] : List String))) = [] ∧
      applyIconsList ["a", "b"] ["x", "y"] ["zz"] = (["a", "b"], ["x", "y"])) :=
  ⟨⟨by decide, by decide, by decide,
      ((icons_list_fallback_and_filter ["a", "b"] ["x", "y"] ["b", "zz"]
        (by decide) (by decide)).2 (by decide)).trans (by decide)⟩,
    ⟨by decide,
      (icons_list_fallback_and_filter ["a", "b"] ["x", "y"] ["zz"]
        (by decide) (by decide)).1 (by decide)⟩⟩

/-- Membership in the generation loop's output: an output entry corresponds
exactly to an index with a truthy name and codepoint and a font for which the
per-symbol generation succeeds — so each (icon, weight) pair contributes
independently of every other pair. -/
theorem makeSvgsLoop_mem
    (validFonts : List (String × Font)) (names symbolsData : List String)
    (options : GenerateSymbolOptions) (entry : String × SvgDoc) :
    entry ∈ makeSvgsLoop validFonts names symbolsData options ↔
      ∃ i, i < names.length ∧ names.getD i "" ≠ "" ∧ symbolsData.getD i "" ≠ "" ∧
        ∃ wf ∈ validFonts, ∃ doc,
          generateSymbolSvg wf.2 (symbolsData.getD i "") (names.getD i "") options
            = some doc ∧
          entry = (createSvgFilename (names.getD i "") wf.1, doc) := by
  simp only [makeSvgsLoop, List.mem_flatMap, List.mem_range]
  constructor
  · rintro ⟨i, hi, hmem⟩
    by_cases hname : names.getD i "" = ""
    · rw [if_pos hname] at hmem
      exact absurd hmem (List.not_mem_nil entry)
    rw [if_neg hname] at hmem
    by_cases hchar : symbolsData.getD i "" = ""
    · rw [if_pos hchar] at hmem
      exact absurd hmem (List.not_mem_nil entry)
    rw [if_neg hchar] at hmem
    rw [List.mem_filterMap] at hmem
    obtain ⟨wf, hwf, hf⟩ := hmem
    cases hgen : generateSymbolSvg wf.2 (symbolsData.getD i "") (names.getD i "") options with
    | none => rw [hgen] at hf; exact absurd hf (by simp)
    | some doc =>
      rw [hgen] at hf
      refine ⟨i, hi, hname, hchar, wf, hwf, doc, hgen, ?_⟩
      exact (Option.some_injective _ hf).symm
  · rintro ⟨i, hi, hname, hchar, wf, hwf, doc, hgen, rfl⟩
    refine ⟨i, hi, ?_⟩
    rw [if_neg hname, if_neg hchar, List.mem_filterMap]
    exact ⟨wf, hwf, by rw [hgen]⟩

/-- C9: per-symbol generation returns `none` (never an exception — the
function is total) when the character resolves to glyph index `0`, when the
path is unavailable, or when the bounding box is unavailable; and the batch
loop's output contains exactly the successful (icon, weight) pairs, so a
failing pair is skipped while every other pair is still emitted — a per-item
failure never aborts the batch. -/
theorem generation_failures_skip_not_abort :
    (∀ (font : Font) (char name : String) (options : GenerateSymbolOptions),
      font.charToGlyphIndex char = 0 →
        generateSymbolSvg font char name options = none) ∧
    (∀ (font : Font) (char name : String) (options : GenerateSymbolOptions),
      font.getPath char options.fontSize = none →
        generateSymbolSvg font char name options = none) ∧
    (∀ (font : Font) (char name : String) (options : GenerateSymbolOptions)
        (path : FontPath),
      font.getPath char options.fontSize = some path → path.boundingBox = none →
        generateSymbolSvg font char name options = none) ∧
    (∀ (validFonts : List (String × Font)) (names symbolsData : List String)
        (options : GenerateSymbolOptions) (entry : String × SvgDoc),
      entry ∈ makeSvgsLoop validFonts names symbolsData options ↔
        ∃ i, i < names.length ∧ names.getD i "" ≠ "" ∧ symbolsData.getD i "" ≠ "" ∧
          ∃ wf ∈ validFonts, ∃ doc,
            generateSymbolSvg wf.2 (symbolsData.getD i "") (names.getD i "") options
              = some doc ∧
            entry = (createSvgFilename (names.getD i "") wf.1, doc)) := by
  refine ⟨fun font char name options h0 => by simp [generateSymbolSvg, h0],
    fun font char name options hp => ?_,
    fun font char name options path hp hb => ?_,
    makeSvgsLoop_mem⟩
  · by_cases h0 : font.charToGlyphIndex char = 0
    · simp [generateSymbolSvg, h0]
    · cases hg : font.glyphs (font.charToGlyphIndex char) <;>
        simp [generateSymbolSvg, h0, hg, hp]
  · by_cases h0 : font.charToGlyphIndex char = 0
    · simp [generateSymbolSvg, h0]
    · cases hg : font.glyphs (font.charToGlyphIndex char) <;>
        simp [generateSymbolSvg, h0, hg, hp, hb]

/-- Closed witness for `generation_failures_skip_not_abort`: a character
absent from the font (glyph index `0`) yields `none`. -/
theorem generation_failures_skip_not_abort_witness :
    missingGlyphFont.charToGlyphIndex "xx" = 0 ∧
    generateSymbolSvg missingGlyphFont "xx" "circle" ⟨24, 2⟩ = none :=
  ⟨rfl, generation_failures_skip_not_abort.1 missingGlyphFont "xx" "circle" ⟨24, 2⟩ rfl⟩

/-- C3 fails on the code: there is no zero-width/zero-height skip in
`generateSymbolSvg`. A glyph whose outline is empty gets the bounding box
`(0, 0, 0, 0)`, the scale divides by zero, and a document IS emitted whose
transform matrix is `matrix(Infinity, 0, 0, Infinity, NaN, NaN)`; a
zero-width, positive-height box also yields a document rather than a skip
(in that case a finite one). -/
theorem degenerate_bbox_not_skipped :
    generateSymbolSvg degenerateFont "x" "space" ⟨24, 2⟩
      = some ⟨24, "space",
          [JNum.posInf, JNum.fin 0, JNum.fin 0, JNum.posInf, JNum.nan, JNum.nan], ""⟩ ∧
    generateSymbolSvg zeroWidthFont "x" "line" ⟨24, 2⟩
      = some ⟨24, "line",
          [JNum.fin 2, JNum.fin 0, JNum.fin 0, JNum.fin 2, JNum.fin 12, JNum.fin 2],
          "M0 0L0 10"⟩ := by
  constructor
  · simp only [generateSymbolSvg, degenerateFont, computeFitJS, jsub, jmul, jdiv, jgt]
    norm_num
  · simp only [generateSymbolSvg, zeroWidthFont, computeFitJS, jsub, jmul, jdiv, jgt]
    norm_num
